/-
Verification of libcork's byte-order header
(src/include/libcork/core/byte-order.h).

The header is modelled shallowly: each C macro becomes a Lean function on
Nat, with the C integer casts rendered as explicit `% 2 ^ w` reductions.
The compile-time endianness dispatch is modelled by parameterizing the
conversion operations over the host endianness.  The preprocessor's
platform-detection chain is modelled as a function from a platform
description to a preprocessing outcome.  A small expression/statement
language captures the syntactic shape of the macros so that mutation
(in-place variants) versus purity (value-returning variants) can be
stated and proved.
-/
import Mathlib

set_option maxHeartbeats 1000000

/-! ## Endianness constants (byte-order.h lines 39, 45) -/

/-- Source: `#define CORK_BIG_ENDIAN 4321`. -/
def CORK_BIG_ENDIAN : Nat := 4321

/-- Source: `#define CORK_LITTLE_ENDIAN 1234`. -/
def CORK_LITTLE_ENDIAN : Nat := 1234

/-! ## Platform detection (byte-order.h lines 77-104)

The preprocessor chain handles two platform families: Linux (via
`<endian.h>`'s `__BYTE_ORDER`) and Mac OS X (via `<machine/endian.h>`'s
`BYTE_ORDER`).  On glibc and BSD systems the order indicator uses the
conventional values 4321 (big), 1234 (little), 3412 (PDP). -/

/-- A build target as seen by the preprocessor: either a Linux system
with its `__BYTE_ORDER` value, an Apple system (`__APPLE__ && __MACH__`)
with its `BYTE_ORDER` value, or a platform matching neither `#if`
branch of the detection chain. -/
inductive Platform where
  | linux (byteOrder : Nat)
  | apple (byteOrder : Nat)
  | unsupported
deriving DecidableEq

/-- Outcome of preprocessing the header on a given platform: either a
`#error` halts compilation, or preprocessing succeeds with
`CORK_HOST_ENDIANNESS` defined to the given value — or left undefined
(`ok none`). -/
inductive PreprocessOutcome where
  | error (msg : String)
  | ok (hostEndianness : Option Nat)
deriving DecidableEq

/-- The detection chain of byte-order.h lines 77-104: on Linux,
`__BYTE_ORDER` is compared against `__BIG_ENDIAN` (4321) and
`__LITTLE_ENDIAN` (1234), with `#error "Cannot determine system
endianness"` otherwise; the Apple branch is identical with the
unprefixed macros.  A platform matching neither branch falls through
the whole `#if`/`#elif` chain: no `#error` fires and
`CORK_HOST_ENDIANNESS` is never defined. -/
def detectEndianness : Platform → PreprocessOutcome
  | .linux bo =>
      if bo = 4321 then .ok (some CORK_BIG_ENDIAN)
      else if bo = 1234 then .ok (some CORK_LITTLE_ENDIAN)
      else .error "Cannot determine system endianness"
  | .apple bo =>
      if bo = 4321 then .ok (some CORK_BIG_ENDIAN)
      else if bo = 1234 then .ok (some CORK_LITTLE_ENDIAN)
      else .error "Cannot determine system endianness"
  | .unsupported => .ok none

/-- Whether the platform metadata determines a byte order at all
(i.e. whether any branch of the detection chain would resolve it). -/
def byteOrderDeterminable : Platform → Prop
  | .linux bo => bo = 4321 ∨ bo = 1234
  | .apple bo => bo = 4321 ∨ bo = 1234
  | .unsupported => False

instance : DecidablePred byteOrderDeterminable := fun p => by
  cases p <;> dsimp [byteOrderDeterminable] <;> infer_instance

/-! ## Host endianness as a resolved compile-time parameter
(byte-order.h lines 107-117) -/

/-- The two possible resolved values of `CORK_HOST_ENDIANNESS`. -/
inductive Endianness where
  | big
  | little
deriving DecidableEq

/-- The numeric value of a resolved endianness. -/
def endiannessValue : Endianness → Nat
  | .big => CORK_BIG_ENDIAN
  | .little => CORK_LITTLE_ENDIAN

/-- Macro `CORK_OTHER_ENDIANNESS` (lines 108/113): the opposite order. -/
def CORK_OTHER_ENDIANNESS : Endianness → Endianness
  | .big => .little
  | .little => .big

/-- Macro `CORK_HOST_ENDIANNESS_NAME` (lines 109/114). -/
def CORK_HOST_ENDIANNESS_NAME : Endianness → String
  | .big => "big"
  | .little => "little"

/-- Macro `CORK_OTHER_ENDIANNESS_NAME` (lines 110/115). -/
def CORK_OTHER_ENDIANNESS_NAME : Endianness → String
  | .big => "little"
  | .little => "big"

/-! ## Unconditional swap macros (byte-order.h lines 139-171)

Each occurrence of `(uintN_t) x` in the macro body becomes `x % 2 ^ N`. -/

/-- Macro `CORK_SWAP_UINT16` (lines 139-141). -/
def CORK_SWAP_UINT16 (u16 : Nat) : Nat :=
  ((u16 % 2 ^ 16 &&& 0xff00) >>> 8) |||
  ((u16 % 2 ^ 16 &&& 0x00ff) <<< 8)

/-- Macro `CORK_SWAP_UINT32` (lines 150-154). -/
def CORK_SWAP_UINT32 (u32 : Nat) : Nat :=
  ((u32 % 2 ^ 32 &&& 0xff000000) >>> 24) |||
  ((u32 % 2 ^ 32 &&& 0x00ff0000) >>> 8) |||
  ((u32 % 2 ^ 32 &&& 0x0000ff00) <<< 8) |||
  ((u32 % 2 ^ 32 &&& 0x000000ff) <<< 24)

/-- Macro `CORK_SWAP_UINT64` (lines 163-171). -/
def CORK_SWAP_UINT64 (u64 : Nat) : Nat :=
  ((u64 % 2 ^ 64 &&& 0xff00000000000000) >>> 56) |||
  ((u64 % 2 ^ 64 &&& 0x00ff000000000000) >>> 40) |||
  ((u64 % 2 ^ 64 &&& 0x0000ff0000000000) >>> 24) |||
  ((u64 % 2 ^ 64 &&& 0x000000ff00000000) >>> 8) |||
  ((u64 % 2 ^ 64 &&& 0x00000000ff000000) <<< 8) |||
  ((u64 % 2 ^ 64 &&& 0x0000000000ff0000) <<< 24) |||
  ((u64 % 2 ^ 64 &&& 0x000000000000ff00) <<< 40) |||
  ((u64 % 2 ^ 64 &&& 0x00000000000000ff) <<< 56)

/-! ## In-place swap macros (lines 179-204), as store transformers:
`do { v = CORK_SWAP_UINTn(v); } while (0)` maps the variable's old
contents to its new contents. -/

/-- Macro `CORK_SWAP_IN_PLACE_UINT16` (lines 179-182). -/
def CORK_SWAP_IN_PLACE_UINT16 (u16 : Nat) : Nat := CORK_SWAP_UINT16 u16

/-- Macro `CORK_SWAP_IN_PLACE_UINT32` (lines 190-193). -/
def CORK_SWAP_IN_PLACE_UINT32 (u32 : Nat) : Nat := CORK_SWAP_UINT32 u32

/-- Macro `CORK_SWAP_IN_PLACE_UINT64` (lines 201-204). -/
def CORK_SWAP_IN_PLACE_UINT64 (u64 : Nat) : Nat := CORK_SWAP_UINT64 u64

/-! ## Directional conversions (lines 280-320), parameterized by the
resolved host endianness: on a big-endian host `X_BIG_TO_HOST` is the
identity and `X_LITTLE_TO_HOST` is the swap; mirrored on little. -/

/-- Macro `CORK_UINT16_BIG_TO_HOST` (lines 282/302). -/
def CORK_UINT16_BIG_TO_HOST : Endianness → Nat → Nat
  | .big, u16 => u16
  | .little, u16 => CORK_SWAP_UINT16 u16

/-- Macro `CORK_UINT16_LITTLE_TO_HOST` (lines 283/303). -/
def CORK_UINT16_LITTLE_TO_HOST : Endianness → Nat → Nat
  | .big, u16 => CORK_SWAP_UINT16 u16
  | .little, u16 => u16

/-- Macro `CORK_UINT32_BIG_TO_HOST` (lines 285/305). -/
def CORK_UINT32_BIG_TO_HOST : Endianness → Nat → Nat
  | .big, u32 => u32
  | .little, u32 => CORK_SWAP_UINT32 u32

/-- Macro `CORK_UINT32_LITTLE_TO_HOST` (lines 286/306). -/
def CORK_UINT32_LITTLE_TO_HOST : Endianness → Nat → Nat
  | .big, u32 => CORK_SWAP_UINT32 u32
  | .little, u32 => u32

/-- Macro `CORK_UINT64_BIG_TO_HOST` (lines 288/308). -/
def CORK_UINT64_BIG_TO_HOST : Endianness → Nat → Nat
  | .big, u64 => u64
  | .little, u64 => CORK_SWAP_UINT64 u64

/-- Macro `CORK_UINT64_LITTLE_TO_HOST` (lines 289/309). -/
def CORK_UINT64_LITTLE_TO_HOST : Endianness → Nat → Nat
  | .big, u64 => CORK_SWAP_UINT64 u64
  | .little, u64 => u64

/-- Macro `CORK_UINT16_BIG_TO_HOST_IN_PLACE` (lines 291/311): on a matching
host the macro expands to nothing (variable untouched); otherwise it is
the in-place swap. -/
def CORK_UINT16_BIG_TO_HOST_IN_PLACE : Endianness → Nat → Nat
  | .big, u16 => u16
  | .little, u16 => CORK_SWAP_IN_PLACE_UINT16 u16

/-- Macro `CORK_UINT16_LITTLE_TO_HOST_IN_PLACE` (lines 292/312). -/
def CORK_UINT16_LITTLE_TO_HOST_IN_PLACE : Endianness → Nat → Nat
  | .big, u16 => CORK_SWAP_IN_PLACE_UINT16 u16
  | .little, u16 => u16

/-- Macro `CORK_UINT32_BIG_TO_HOST_IN_PLACE` (lines 294/314). -/
def CORK_UINT32_BIG_TO_HOST_IN_PLACE : Endianness → Nat → Nat
  | .big, u32 => u32
  | .little, u32 => CORK_SWAP_IN_PLACE_UINT32 u32

/-- Macro `CORK_UINT32_LITTLE_TO_HOST_IN_PLACE` (lines 295/315). -/
def CORK_UINT32_LITTLE_TO_HOST_IN_PLACE : Endianness → Nat → Nat
  | .big, u32 => CORK_SWAP_IN_PLACE_UINT32 u32
  | .little, u32 => u32

/-- Macro `CORK_UINT64_BIG_TO_HOST_IN_PLACE` (lines 297/317). -/
def CORK_UINT64_BIG_TO_HOST_IN_PLACE : Endianness → Nat → Nat
  | .big, u64 => u64
  | .little, u64 => CORK_SWAP_IN_PLACE_UINT64 u64

/-- Macro `CORK_UINT64_LITTLE_TO_HOST_IN_PLACE` (lines 298/318). -/
def CORK_UINT64_LITTLE_TO_HOST_IN_PLACE : Endianness → Nat → Nat
  | .big, u64 => CORK_SWAP_IN_PLACE_UINT64 u64
  | .little, u64 => u64

/-! ## Host-to-X aliases (lines 328-406): each `HOST_TO_X` macro is
`#define`d to the corresponding `X_TO_HOST` macro. -/

/-- Macro `CORK_UINT16_HOST_TO_BIG` (line 328). -/
def CORK_UINT16_HOST_TO_BIG : Endianness → Nat → Nat := CORK_UINT16_BIG_TO_HOST

/-- Macro `CORK_UINT32_HOST_TO_BIG` (line 335). -/
def CORK_UINT32_HOST_TO_BIG : Endianness → Nat → Nat := CORK_UINT32_BIG_TO_HOST

/-- Macro `CORK_UINT64_HOST_TO_BIG` (line 342). -/
def CORK_UINT64_HOST_TO_BIG : Endianness → Nat → Nat := CORK_UINT64_BIG_TO_HOST

/-- Macro `CORK_UINT16_HOST_TO_LITTLE` (line 349). -/
def CORK_UINT16_HOST_TO_LITTLE : Endianness → Nat → Nat := CORK_UINT16_LITTLE_TO_HOST

/-- Macro `CORK_UINT32_HOST_TO_LITTLE` (line 356). -/
def CORK_UINT32_HOST_TO_LITTLE : Endianness → Nat → Nat := CORK_UINT32_LITTLE_TO_HOST

/-- Macro `CORK_UINT64_HOST_TO_LITTLE` (line 363). -/
def CORK_UINT64_HOST_TO_LITTLE : Endianness → Nat → Nat := CORK_UINT64_LITTLE_TO_HOST

/-- Macro `CORK_UINT16_HOST_TO_BIG_IN_PLACE` (line 371). -/
def CORK_UINT16_HOST_TO_BIG_IN_PLACE : Endianness → Nat → Nat :=
  CORK_UINT16_BIG_TO_HOST_IN_PLACE

/-- Macro `CORK_UINT32_HOST_TO_BIG_IN_PLACE` (line 378). -/
def CORK_UINT32_HOST_TO_BIG_IN_PLACE : Endianness → Nat → Nat :=
  CORK_UINT32_BIG_TO_HOST_IN_PLACE

/-- Macro `CORK_UINT64_HOST_TO_BIG_IN_PLACE` (line 385). -/
def CORK_UINT64_HOST_TO_BIG_IN_PLACE : Endianness → Nat → Nat :=
  CORK_UINT64_BIG_TO_HOST_IN_PLACE

/-- Macro `CORK_UINT16_HOST_TO_LITTLE_IN_PLACE` (line 392). -/
def CORK_UINT16_HOST_TO_LITTLE_IN_PLACE : Endianness → Nat → Nat :=
  CORK_UINT16_LITTLE_TO_HOST_IN_PLACE

/-- Macro `CORK_UINT32_HOST_TO_LITTLE_IN_PLACE` (line 399). -/
def CORK_UINT32_HOST_TO_LITTLE_IN_PLACE : Endianness → Nat → Nat :=
  CORK_UINT32_LITTLE_TO_HOST_IN_PLACE

/-- Macro `CORK_UINT64_HOST_TO_LITTLE_IN_PLACE` (line 406). -/
def CORK_UINT64_HOST_TO_LITTLE_IN_PLACE : Endianness → Nat → Nat :=
  CORK_UINT64_LITTLE_TO_HOST_IN_PLACE

/-! ## Byte extraction (specification side): byte `i` of a value is
bits `8*i .. 8*i+7`, i.e. the coefficient of `256 ^ i` in base-256. -/

/-- Byte `i` of `x` (little-endian byte numbering: byte 0 is the least
significant). -/
def byte (i x : Nat) : Nat := x / 2 ^ (8 * i) % 256

/-! ## A C expression/statement fragment

To state the frame properties (the value-returning macros do not modify
their operand; the in-place macros overwrite it), the macro bodies are
also given as terms of a small expression language over a single
integer variable.  Evaluation returns the expression's value together
with the variable's (possibly updated) contents, so that mutation is
observable. -/

/-- C expressions over one variable: the variable itself, integer
literals, a cast to an unsigned width, bitwise and/or, shifts by a
constant, and assignment back to the variable. -/
inductive CExpr where
  | var : CExpr
  | lit : Nat → CExpr
  | cast : Nat → CExpr → CExpr
  | band : CExpr → CExpr → CExpr
  | bor : CExpr → CExpr → CExpr
  | shl : CExpr → Nat → CExpr
  | shr : CExpr → Nat → CExpr
  | assign : CExpr → CExpr

/-- Evaluate an expression in a store holding the variable's contents;
the result is (value, new contents). -/
def CExpr.eval : CExpr → Nat → Nat × Nat
  | .var, s => (s, s)
  | .lit n, s => (n, s)
  | .cast w e, s => ((e.eval s).1 % 2 ^ w, (e.eval s).2)
  | .band a b, s => ((a.eval s).1 &&& (b.eval (a.eval s).2).1, (b.eval (a.eval s).2).2)
  | .bor a b, s => ((a.eval s).1 ||| (b.eval (a.eval s).2).1, (b.eval (a.eval s).2).2)
  | .shl e k, s => ((e.eval s).1 <<< k, (e.eval s).2)
  | .shr e k, s => ((e.eval s).1 >>> k, (e.eval s).2)
  | .assign e, s => ((e.eval s).1, (e.eval s).1)

/-- A statement: either empty (a macro expanding to nothing) or an
expression statement. -/
inductive CStmt where
  | skip : CStmt
  | exprStmt : CExpr → CStmt

/-- Execute a statement, returning the variable's final contents. -/
def CStmt.exec : CStmt → Nat → Nat
  | .skip, s => s
  | .exprStmt e, s => (e.eval s).2

/-- The body of `CORK_SWAP_UINT16` as an expression over its operand. -/
def swapUint16Expr : CExpr :=
  .bor (.shr (.band (.cast 16 .var) (.lit 0xff00)) 8)
       (.shl (.band (.cast 16 .var) (.lit 0x00ff)) 8)

/-- The body of `CORK_SWAP_UINT32` as an expression over its operand. -/
def swapUint32Expr : CExpr :=
  .bor (.bor (.bor
    (.shr (.band (.cast 32 .var) (.lit 0xff000000)) 24)
    (.shr (.band (.cast 32 .var) (.lit 0x00ff0000)) 8))
    (.shl (.band (.cast 32 .var) (.lit 0x0000ff00)) 8))
    (.shl (.band (.cast 32 .var) (.lit 0x000000ff)) 24)

/-- The body of `CORK_SWAP_UINT64` as an expression over its operand. -/
def swapUint64Expr : CExpr :=
  .bor (.bor (.bor (.bor (.bor (.bor (.bor
    (.shr (.band (.cast 64 .var) (.lit 0xff00000000000000)) 56)
    (.shr (.band (.cast 64 .var) (.lit 0x00ff000000000000)) 40))
    (.shr (.band (.cast 64 .var) (.lit 0x0000ff0000000000)) 24))
    (.shr (.band (.cast 64 .var) (.lit 0x000000ff00000000)) 8))
    (.shl (.band (.cast 64 .var) (.lit 0x00000000ff000000)) 8))
    (.shl (.band (.cast 64 .var) (.lit 0x0000000000ff0000)) 24))
    (.shl (.band (.cast 64 .var) (.lit 0x000000000000ff00)) 40))
    (.shl (.band (.cast 64 .var) (.lit 0x00000000000000ff)) 56)

/-- Expression form of `CORK_UINT16_BIG_TO_HOST`: `(__u16)` on a
big-endian host, the swap body on a little-endian host. -/
def uint16BigToHostExpr : Endianness → CExpr
  | .big => .var
  | .little => swapUint16Expr

/-- Expression form of `CORK_UINT16_LITTLE_TO_HOST`. -/
def uint16LittleToHostExpr : Endianness → CExpr
  | .big => swapUint16Expr
  | .little => .var

/-- Expression form of `CORK_UINT32_BIG_TO_HOST`. -/
def uint32BigToHostExpr : Endianness → CExpr
  | .big => .var
  | .little => swapUint32Expr

/-- Expression form of `CORK_UINT32_LITTLE_TO_HOST`. -/
def uint32LittleToHostExpr : Endianness → CExpr
  | .big => swapUint32Expr
  | .little => .var

/-- Expression form of `CORK_UINT64_BIG_TO_HOST`. -/
def uint64BigToHostExpr : Endianness → CExpr
  | .big => .var
  | .little => swapUint64Expr

/-- Expression form of `CORK_UINT64_LITTLE_TO_HOST`. -/
def uint64LittleToHostExpr : Endianness → CExpr
  | .big => swapUint64Expr
  | .little => .var

/-- Expression form of `CORK_UINT16_HOST_TO_BIG` (alias, line 328). -/
def uint16HostToBigExpr : Endianness → CExpr := uint16BigToHostExpr

/-- Expression form of `CORK_UINT32_HOST_TO_BIG` (alias, line 335). -/
def uint32HostToBigExpr : Endianness → CExpr := uint32BigToHostExpr

/-- Expression form of `CORK_UINT64_HOST_TO_BIG` (alias, line 342). -/
def uint64HostToBigExpr : Endianness → CExpr := uint64BigToHostExpr

/-- Expression form of `CORK_UINT16_HOST_TO_LITTLE` (alias, line 349). -/
def uint16HostToLittleExpr : Endianness → CExpr := uint16LittleToHostExpr

/-- Expression form of `CORK_UINT32_HOST_TO_LITTLE` (alias, line 356). -/
def uint32HostToLittleExpr : Endianness → CExpr := uint32LittleToHostExpr

/-- Expression form of `CORK_UINT64_HOST_TO_LITTLE` (alias, line 363). -/
def uint64HostToLittleExpr : Endianness → CExpr := uint64LittleToHostExpr

/-- Statement form of `CORK_SWAP_IN_PLACE_UINT16`:
`do { v = CORK_SWAP_UINT16(v); } while (0)`. -/
def swapInPlaceUint16Stmt : CStmt := .exprStmt (.assign swapUint16Expr)

/-- Statement form of `CORK_SWAP_IN_PLACE_UINT32`. -/
def swapInPlaceUint32Stmt : CStmt := .exprStmt (.assign swapUint32Expr)

/-- Statement form of `CORK_SWAP_IN_PLACE_UINT64`. -/
def swapInPlaceUint64Stmt : CStmt := .exprStmt (.assign swapUint64Expr)

/-- Statement form of `CORK_UINT16_BIG_TO_HOST_IN_PLACE`: on a
big-endian host the macro expands to nothing. -/
def uint16BigToHostInPlaceStmt : Endianness → CStmt
  | .big => .skip
  | .little => swapInPlaceUint16Stmt

/-- Statement form of `CORK_UINT16_LITTLE_TO_HOST_IN_PLACE`. -/
def uint16LittleToHostInPlaceStmt : Endianness → CStmt
  | .big => swapInPlaceUint16Stmt
  | .little => .skip

/-- Statement form of `CORK_UINT32_BIG_TO_HOST_IN_PLACE`. -/
def uint32BigToHostInPlaceStmt : Endianness → CStmt
  | .big => .skip
  | .little => swapInPlaceUint32Stmt

/-- Statement form of `CORK_UINT32_LITTLE_TO_HOST_IN_PLACE`. -/
def uint32LittleToHostInPlaceStmt : Endianness → CStmt
  | .big => swapInPlaceUint32Stmt
  | .little => .skip

/-- Statement form of `CORK_UINT64_BIG_TO_HOST_IN_PLACE`. -/
def uint64BigToHostInPlaceStmt : Endianness → CStmt
  | .big => .skip
  | .little => swapInPlaceUint64Stmt

/-- Statement form of `CORK_UINT64_LITTLE_TO_HOST_IN_PLACE`. -/
def uint64LittleToHostInPlaceStmt : Endianness → CStmt
  | .big => swapInPlaceUint64Stmt
  | .little => .skip

/-- Statement form of `CORK_UINT16_HOST_TO_BIG_IN_PLACE` (alias). -/
def uint16HostToBigInPlaceStmt : Endianness → CStmt := uint16BigToHostInPlaceStmt

/-- Statement form of `CORK_UINT32_HOST_TO_BIG_IN_PLACE` (alias). -/
def uint32HostToBigInPlaceStmt : Endianness → CStmt := uint32BigToHostInPlaceStmt

/-- Statement form of `CORK_UINT64_HOST_TO_BIG_IN_PLACE` (alias). -/
def uint64HostToBigInPlaceStmt : Endianness → CStmt := uint64BigToHostInPlaceStmt

/-- Statement form of `CORK_UINT16_HOST_TO_LITTLE_IN_PLACE` (alias). -/
def uint16HostToLittleInPlaceStmt : Endianness → CStmt := uint16LittleToHostInPlaceStmt

/-- Statement form of `CORK_UINT32_HOST_TO_LITTLE_IN_PLACE` (alias). -/
def uint32HostToLittleInPlaceStmt : Endianness → CStmt := uint32LittleToHostInPlaceStmt

/-- Statement form of `CORK_UINT64_HOST_TO_LITTLE_IN_PLACE` (alias). -/
def uint64HostToLittleInPlaceStmt : Endianness → CStmt := uint64LittleToHostInPlaceStmt

/-! ## Arithmetic characterization of the swap macros -/

/-- Masking with a byte mask `0xff <<< k` extracts byte `k/8` in place. -/
lemma and_ff_shift (x k : Nat) : x &&& 255 <<< k = x / 2 ^ k % 256 * 2 ^ k := by
  have h : x / 2 ^ k % 256 * 2 ^ k = ((x >>> k) &&& 255) <<< k := by
    rw [Nat.shiftLeft_eq, Nat.shiftRight_eq_div_pow,
        show (255 : Nat) = 2 ^ 8 - 1 from by norm_num,
        Nat.and_pow_two_sub_one_eq_mod]
  rw [h]
  apply Nat.eq_of_testBit_eq
  intro i
  simp only [Nat.testBit_and, Nat.testBit_shiftLeft, Nat.testBit_shiftRight]
  by_cases hk : k ≤ i
  · simp [ge_iff_le, hk, Nat.add_sub_cancel' hk, Bool.and_comm]
  · simp [ge_iff_le, hk]

lemma and_mask0 (x : Nat) : x &&& 0x00ff = x % 256 := by
  rw [show (0x00ff : Nat) = 2 ^ 8 - 1 from by norm_num,
      Nat.and_pow_two_sub_one_eq_mod]

lemma and_mask8 (x : Nat) : x &&& 0xff00 = x / 256 % 256 * 256 := by
  rw [show (0xff00 : Nat) = 255 <<< 8 from by norm_num [Nat.shiftLeft_eq]]
  have := and_ff_shift x 8
  norm_num at this
  exact this

lemma and_mask16 (x : Nat) : x &&& 0xff0000 = x / 65536 % 256 * 65536 := by
  rw [show (0xff0000 : Nat) = 255 <<< 16 from by norm_num [Nat.shiftLeft_eq]]
  have := and_ff_shift x 16
  norm_num at this
  exact this

lemma and_mask24 (x : Nat) : x &&& 0xff000000 = x / 16777216 % 256 * 16777216 := by
  rw [show (0xff000000 : Nat) = 255 <<< 24 from by norm_num [Nat.shiftLeft_eq]]
  have := and_ff_shift x 24
  norm_num at this
  exact this

lemma and_mask32 (x : Nat) :
    x &&& 0xff00000000 = x / 4294967296 % 256 * 4294967296 := by
  rw [show (0xff00000000 : Nat) = 255 <<< 32 from by norm_num [Nat.shiftLeft_eq]]
  have := and_ff_shift x 32
  norm_num at this
  exact this

lemma and_mask40 (x : Nat) :
    x &&& 0xff0000000000 = x / 1099511627776 % 256 * 1099511627776 := by
  rw [show (0xff0000000000 : Nat) = 255 <<< 40 from by norm_num [Nat.shiftLeft_eq]]
  have := and_ff_shift x 40
  norm_num at this
  exact this

lemma and_mask48 (x : Nat) :
    x &&& 0xff000000000000 = x / 281474976710656 % 256 * 281474976710656 := by
  rw [show (0xff000000000000 : Nat) = 255 <<< 48 from by norm_num [Nat.shiftLeft_eq]]
  have := and_ff_shift x 48
  norm_num at this
  exact this

lemma and_mask56 (x : Nat) :
    x &&& 0xff00000000000000 = x / 72057594037927936 % 256 * 72057594037927936 := by
  rw [show (0xff00000000000000 : Nat) = 255 <<< 56 from by norm_num [Nat.shiftLeft_eq]]
  have := and_ff_shift x 56
  norm_num at this
  exact this

/-- Bitwise or of values occupying disjoint bit ranges is addition. -/
lemma lor_eq_add (n a b : Nat) (ha : a < 2 ^ n) (hb : b % 2 ^ n = 0) :
    a ||| b = a + b := by
  have hd : 2 ^ n * (b / 2 ^ n) = b := Nat.mul_div_cancel' (Nat.dvd_of_mod_eq_zero hb)
  calc a ||| b = b ||| a := Nat.lor_comm a b
    _ = 2 ^ n * (b / 2 ^ n) ||| a := by rw [hd]
    _ = 2 ^ n * (b / 2 ^ n) + a := (Nat.mul_add_lt_is_or ha _).symm
    _ = a + b := by rw [hd]; omega

/-- `CORK_SWAP_UINT16` in plain arithmetic. -/
theorem swap16_eq (v : Nat) :
    CORK_SWAP_UINT16 v = v % 65536 % 256 * 256 + v % 65536 / 256 % 256 := by
  unfold CORK_SWAP_UINT16
  rw [and_mask8, and_mask0, Nat.shiftRight_eq_div_pow, Nat.shiftLeft_eq]
  norm_num
  rw [lor_eq_add 8 _ _ (by omega) (by omega)]
  omega

/-- `CORK_SWAP_UINT32` in plain arithmetic. -/
theorem swap32_eq (v : Nat) :
    CORK_SWAP_UINT32 v = v % 4294967296 % 256 * 16777216 +
      v % 4294967296 / 256 % 256 * 65536 +
      v % 4294967296 / 65536 % 256 * 256 +
      v % 4294967296 / 16777216 % 256 := by
  unfold CORK_SWAP_UINT32
  rw [and_mask24, and_mask16, and_mask8, and_mask0]
  simp only [Nat.shiftRight_eq_div_pow, Nat.shiftLeft_eq]
  norm_num
  nth_rewrite 3 [lor_eq_add 8 _ _ (by omega) (by omega)]
  nth_rewrite 2 [lor_eq_add 16 _ _ (by omega) (by omega)]
  nth_rewrite 1 [lor_eq_add 24 _ _ (by omega) (by omega)]
  omega

/-- `CORK_SWAP_UINT64` in plain arithmetic. -/
theorem swap64_eq (v : Nat) :
    CORK_SWAP_UINT64 v = v % 18446744073709551616 % 256 * 72057594037927936 +
      v % 18446744073709551616 / 256 % 256 * 281474976710656 +
      v % 18446744073709551616 / 65536 % 256 * 1099511627776 +
      v % 18446744073709551616 / 16777216 % 256 * 4294967296 +
      v % 18446744073709551616 / 4294967296 % 256 * 16777216 +
      v % 18446744073709551616 / 1099511627776 % 256 * 65536 +
      v % 18446744073709551616 / 281474976710656 % 256 * 256 +
      v % 18446744073709551616 / 72057594037927936 % 256 := by
  unfold CORK_SWAP_UINT64
  rw [and_mask56, and_mask48, and_mask40, and_mask32,
      and_mask24, and_mask16, and_mask8, and_mask0]
  simp only [Nat.shiftRight_eq_div_pow, Nat.shiftLeft_eq]
  norm_num
  nth_rewrite 7 [lor_eq_add 8 _ _ (by omega) (by omega)]
  nth_rewrite 6 [lor_eq_add 16 _ _ (by omega) (by omega)]
  nth_rewrite 5 [lor_eq_add 24 _ _ (by omega) (by omega)]
  nth_rewrite 4 [lor_eq_add 32 _ _ (by omega) (by omega)]
  nth_rewrite 3 [lor_eq_add 40 _ _ (by omega) (by omega)]
  nth_rewrite 2 [lor_eq_add 48 _ _ (by omega) (by omega)]
  nth_rewrite 1 [lor_eq_add 56 _ _ (by omega) (by omega)]
  omega

/-- Action of the 16-bit swap on an explicit two-byte decomposition. -/
lemma swap16_on_bytes (b0 b1 : Nat) (h0 : b0 < 256) (h1 : b1 < 256) :
    CORK_SWAP_UINT16 (b0 + 256 * b1) = b1 + 256 * b0 := by
  rw [swap16_eq]; omega

/-- Action of the 32-bit swap on an explicit four-byte decomposition. -/
lemma swap32_on_bytes (b0 b1 b2 b3 : Nat)
    (h0 : b0 < 256) (h1 : b1 < 256) (h2 : b2 < 256) (h3 : b3 < 256) :
    CORK_SWAP_UINT32 (b0 + 256 * b1 + 65536 * b2 + 16777216 * b3) =
      b3 + 256 * b2 + 65536 * b1 + 16777216 * b0 := by
  rw [swap32_eq]; omega

/-- Action of the 64-bit swap on an explicit eight-byte decomposition. -/
lemma swap64_on_bytes (b0 b1 b2 b3 b4 b5 b6 b7 : Nat)
    (h0 : b0 < 256) (h1 : b1 < 256) (h2 : b2 < 256) (h3 : b3 < 256)
    (h4 : b4 < 256) (h5 : b5 < 256) (h6 : b6 < 256) (h7 : b7 < 256) :
    CORK_SWAP_UINT64 (b0 + 256 * b1 + 65536 * b2 + 16777216 * b3 +
      4294967296 * b4 + 1099511627776 * b5 + 281474976710656 * b6 +
      72057594037927936 * b7) =
      b7 + 256 * b6 + 65536 * b5 + 16777216 * b4 +
      4294967296 * b3 + 1099511627776 * b2 + 281474976710656 * b1 +
      72057594037927936 * b0 := by
  rw [swap64_eq]; omega

/-- Every 16-bit value splits into two bytes. -/
lemma decomp16 (v : Nat) (h : v < 2 ^ 16) :
    ∃ b0 b1, b0 < 256 ∧ b1 < 256 ∧ v = b0 + 256 * b1 :=
  ⟨v % 256, v / 256, by omega, by omega, by omega⟩

/-- Every 32-bit value splits into four bytes. -/
lemma decomp32 (v : Nat) (h : v < 2 ^ 32) :
    ∃ b0 b1 b2 b3, b0 < 256 ∧ b1 < 256 ∧ b2 < 256 ∧ b3 < 256 ∧
      v = b0 + 256 * b1 + 65536 * b2 + 16777216 * b3 :=
  ⟨v % 256, v / 256 % 256, v / 65536 % 256, v / 16777216 % 256,
   by omega, by omega, by omega, by omega, by omega⟩

/-- Every 64-bit value splits into eight bytes. -/
lemma decomp64 (v : Nat) (h : v < 2 ^ 64) :
    ∃ b0 b1 b2 b3 b4 b5 b6 b7, b0 < 256 ∧ b1 < 256 ∧ b2 < 256 ∧ b3 < 256 ∧
      b4 < 256 ∧ b5 < 256 ∧ b6 < 256 ∧ b7 < 256 ∧
      v = b0 + 256 * b1 + 65536 * b2 + 16777216 * b3 + 4294967296 * b4 +
        1099511627776 * b5 + 281474976710656 * b6 + 72057594037927936 * b7 :=
  ⟨v % 256, v / 256 % 256, v / 65536 % 256, v / 16777216 % 256,
   v / 4294967296 % 256, v / 1099511627776 % 256, v / 281474976710656 % 256,
   v / 72057594037927936 % 256,
   by omega, by omega, by omega, by omega, by omega, by omega, by omega, by omega,
   by omega⟩

/-- Byte components of a two-byte sum. -/
lemma bytes16 (b0 b1 : Nat) (h0 : b0 < 256) (h1 : b1 < 256) :
    byte 0 (b0 + 256 * b1) = b0 ∧ byte 1 (b0 + 256 * b1) = b1 := by
  and_intros <;> (simp only [byte]; norm_num; omega)

/-- Byte components of a four-byte sum. -/
lemma bytes32 (b0 b1 b2 b3 : Nat)
    (h0 : b0 < 256) (h1 : b1 < 256) (h2 : b2 < 256) (h3 : b3 < 256) :
    byte 0 (b0 + 256 * b1 + 65536 * b2 + 16777216 * b3) = b0 ∧
    byte 1 (b0 + 256 * b1 + 65536 * b2 + 16777216 * b3) = b1 ∧
    byte 2 (b0 + 256 * b1 + 65536 * b2 + 16777216 * b3) = b2 ∧
    byte 3 (b0 + 256 * b1 + 65536 * b2 + 16777216 * b3) = b3 := by
  and_intros <;> (simp only [byte]; norm_num; omega)

/-- Byte components of an eight-byte sum. -/
lemma bytes64 (b0 b1 b2 b3 b4 b5 b6 b7 : Nat)
    (h0 : b0 < 256) (h1 : b1 < 256) (h2 : b2 < 256) (h3 : b3 < 256)
    (h4 : b4 < 256) (h5 : b5 < 256) (h6 : b6 < 256) (h7 : b7 < 256) :
    byte 0 (b0 + 256 * b1 + 65536 * b2 + 16777216 * b3 + 4294967296 * b4 +
      1099511627776 * b5 + 281474976710656 * b6 + 72057594037927936 * b7) = b0 ∧
    byte 1 (b0 + 256 * b1 + 65536 * b2 + 16777216 * b3 + 4294967296 * b4 +
      1099511627776 * b5 + 281474976710656 * b6 + 72057594037927936 * b7) = b1 ∧
    byte 2 (b0 + 256 * b1 + 65536 * b2 + 16777216 * b3 + 4294967296 * b4 +
      1099511627776 * b5 + 281474976710656 * b6 + 72057594037927936 * b7) = b2 ∧
    byte 3 (b0 + 256 * b1 + 65536 * b2 + 16777216 * b3 + 4294967296 * b4 +
      1099511627776 * b5 + 281474976710656 * b6 + 72057594037927936 * b7) = b3 ∧
    byte 4 (b0 + 256 * b1 + 65536 * b2 + 16777216 * b3 + 4294967296 * b4 +
      1099511627776 * b5 + 281474976710656 * b6 + 72057594037927936 * b7) = b4 ∧
    byte 5 (b0 + 256 * b1 + 65536 * b2 + 16777216 * b3 + 4294967296 * b4 +
      1099511627776 * b5 + 281474976710656 * b6 + 72057594037927936 * b7) = b5 ∧
    byte 6 (b0 + 256 * b1 + 65536 * b2 + 16777216 * b3 + 4294967296 * b4 +
      1099511627776 * b5 + 281474976710656 * b6 + 72057594037927936 * b7) = b6 ∧
    byte 7 (b0 + 256 * b1 + 65536 * b2 + 16777216 * b3 + 4294967296 * b4 +
      1099511627776 * b5 + 281474976710656 * b6 + 72057594037927936 * b7) = b7 := by
  and_intros <;> (simp only [byte]; norm_num; omega)

/-- The 16-bit swap reverses bytes. -/
lemma swap16_byte (v i : Nat) (hv : v < 2 ^ 16) (hi : i < 2) :
    byte i (CORK_SWAP_UINT16 v) = byte (1 - i) v := by
  obtain ⟨b0, b1, h0, h1, rfl⟩ := decomp16 v hv
  obtain ⟨o0, o1⟩ := bytes16 b0 b1 h0 h1
  obtain ⟨r0, r1⟩ := bytes16 b1 b0 h1 h0
  rw [swap16_on_bytes b0 b1 h0 h1]
  interval_cases i
  · norm_num
    rw [r0, o1]
  · norm_num
    rw [r1, o0]

/-- The 32-bit swap reverses bytes. -/
lemma swap32_byte (v i : Nat) (hv : v < 2 ^ 32) (hi : i < 4) :
    byte i (CORK_SWAP_UINT32 v) = byte (3 - i) v := by
  obtain ⟨b0, b1, b2, b3, h0, h1, h2, h3, rfl⟩ := decomp32 v hv
  obtain ⟨o0, o1, o2, o3⟩ := bytes32 b0 b1 b2 b3 h0 h1 h2 h3
  obtain ⟨r0, r1, r2, r3⟩ := bytes32 b3 b2 b1 b0 h3 h2 h1 h0
  rw [swap32_on_bytes b0 b1 b2 b3 h0 h1 h2 h3]
  interval_cases i
  · norm_num
    rw [r0, o3]
  · norm_num
    rw [r1, o2]
  · norm_num
    rw [r2, o1]
  · norm_num
    rw [r3, o0]

/-- The 64-bit swap reverses bytes. -/
lemma swap64_byte (v i : Nat) (hv : v < 2 ^ 64) (hi : i < 8) :
    byte i (CORK_SWAP_UINT64 v) = byte (7 - i) v := by
  obtain ⟨b0, b1, b2, b3, b4, b5, b6, b7, h0, h1, h2, h3, h4, h5, h6, h7, rfl⟩ :=
    decomp64 v hv
  obtain ⟨o0, o1, o2, o3, o4, o5, o6, o7⟩ :=
    bytes64 b0 b1 b2 b3 b4 b5 b6 b7 h0 h1 h2 h3 h4 h5 h6 h7
  obtain ⟨r0, r1, r2, r3, r4, r5, r6, r7⟩ :=
    bytes64 b7 b6 b5 b4 b3 b2 b1 b0 h7 h6 h5 h4 h3 h2 h1 h0
  rw [swap64_on_bytes b0 b1 b2 b3 b4 b5 b6 b7 h0 h1 h2 h3 h4 h5 h6 h7]
  interval_cases i
  · norm_num
    rw [r0, o7]
  · norm_num
    rw [r1, o6]
  · norm_num
    rw [r2, o5]
  · norm_num
    rw [r3, o4]
  · norm_num
    rw [r4, o3]
  · norm_num
    rw [r5, o2]
  · norm_num
    rw [r6, o1]
  · norm_num
    rw [r7, o0]

/-- The 16-bit swap is an involution on 16-bit values. -/
lemma swap16_involution (v : Nat) (h : v < 2 ^ 16) :
    CORK_SWAP_UINT16 (CORK_SWAP_UINT16 v) = v := by
  obtain ⟨b0, b1, h0, h1, rfl⟩ := decomp16 v h
  rw [swap16_on_bytes b0 b1 h0 h1, swap16_on_bytes b1 b0 h1 h0]

/-- The 32-bit swap is an involution on 32-bit values. -/
lemma swap32_involution (v : Nat) (h : v < 2 ^ 32) :
    CORK_SWAP_UINT32 (CORK_SWAP_UINT32 v) = v := by
  obtain ⟨b0, b1, b2, b3, h0, h1, h2, h3, rfl⟩ := decomp32 v h
  rw [swap32_on_bytes b0 b1 b2 b3 h0 h1 h2 h3,
      swap32_on_bytes b3 b2 b1 b0 h3 h2 h1 h0]

/-- The 64-bit swap is an involution on 64-bit values. -/
lemma swap64_involution (v : Nat) (h : v < 2 ^ 64) :
    CORK_SWAP_UINT64 (CORK_SWAP_UINT64 v) = v := by
  obtain ⟨b0, b1, b2, b3, b4, b5, b6, b7, h0, h1, h2, h3, h4, h5, h6, h7, rfl⟩ :=
    decomp64 v h
  rw [swap64_on_bytes b0 b1 b2 b3 b4 b5 b6 b7 h0 h1 h2 h3 h4 h5 h6 h7,
      swap64_on_bytes b7 b6 b5 b4 b3 b2 b1 b0 h7 h6 h5 h4 h3 h2 h1 h0]

/-- The 16-bit swap depends only on its argument modulo `2 ^ 16`. -/
lemma swap16_mod (x : Nat) : CORK_SWAP_UINT16 x = CORK_SWAP_UINT16 (x % 2 ^ 16) := by
  rw [swap16_eq, swap16_eq]
  omega

/-- The 32-bit swap depends only on its argument modulo `2 ^ 32`. -/
lemma swap32_mod (x : Nat) : CORK_SWAP_UINT32 x = CORK_SWAP_UINT32 (x % 2 ^ 32) := by
  rw [swap32_eq, swap32_eq]
  omega

/-- The 64-bit swap depends only on its argument modulo `2 ^ 64`. -/
lemma swap64_mod (x : Nat) : CORK_SWAP_UINT64 x = CORK_SWAP_UINT64 (x % 2 ^ 64) := by
  rw [swap64_eq, swap64_eq]
  omega

/-- The 16-bit swap always yields a 16-bit value. -/
lemma swap16_lt (x : Nat) : CORK_SWAP_UINT16 x < 2 ^ 16 := by
  rw [swap16_eq]; omega

/-- The 32-bit swap always yields a 32-bit value. -/
lemma swap32_lt (x : Nat) : CORK_SWAP_UINT32 x < 2 ^ 32 := by
  rw [swap32_eq]; omega

/-- The 64-bit swap always yields a 64-bit value. -/
lemma swap64_lt (x : Nat) : CORK_SWAP_UINT64 x < 2 ^ 64 := by
  rw [swap64_eq]; omega

/-- Evaluating the 16-bit swap expression returns the swap's value and
leaves the store unchanged. -/
lemma swapUint16Expr_eval (s : Nat) :
    CExpr.eval swapUint16Expr s = (CORK_SWAP_UINT16 s, s) := rfl

/-- Evaluating the 32-bit swap expression returns the swap's value and
leaves the store unchanged. -/
lemma swapUint32Expr_eval (s : Nat) :
    CExpr.eval swapUint32Expr s = (CORK_SWAP_UINT32 s, s) := rfl

/-- Evaluating the 64-bit swap expression returns the swap's value and
leaves the store unchanged. -/
lemma swapUint64Expr_eval (s : Nat) :
    CExpr.eval swapUint64Expr s = (CORK_SWAP_UINT64 s, s) := rfl

/-! ## Claims -/

/-- C1: for every width n in {16,32,64} and every value v of width n,
the unconditional swap returns a value whose byte i equals byte
(n/8 - 1 - i) of v for every byte index i; in particular 0x1234 maps to
0x3412, 0x12345678 to 0x78563412, and 0x0123456789ABCDEF to
0xEFCDAB8967452301. -/
theorem C1_swap_reverses_byte_order :
    (∀ v i, v < 2 ^ 16 → i < 2 → byte i (CORK_SWAP_UINT16 v) = byte (1 - i) v) ∧
    (∀ v i, v < 2 ^ 32 → i < 4 → byte i (CORK_SWAP_UINT32 v) = byte (3 - i) v) ∧
    (∀ v i, v < 2 ^ 64 → i < 8 → byte i (CORK_SWAP_UINT64 v) = byte (7 - i) v) ∧
    CORK_SWAP_UINT16 0x1234 = 0x3412 ∧
    CORK_SWAP_UINT32 0x12345678 = 0x78563412 ∧
    CORK_SWAP_UINT64 0x0123456789ABCDEF = 0xEFCDAB8967452301 :=
  ⟨swap16_byte, swap32_byte, swap64_byte, by decide, by decide, by decide⟩

/-- Witness for C1 at width 16, v = 0x1234, i = 0. -/
theorem C1_witness :
    byte 0 (CORK_SWAP_UINT16 0x1234) = byte 1 0x1234 :=
  C1_swap_reverses_byte_order.1 0x1234 0 (by decide) (by decide)

/-- C2: the claim asserts that whenever the platform's byte order cannot
be determined, compilation halts with a static error.  The code violates
this: the detection chain covers only Linux and Apple targets and has no
final else-with-error, so on any other platform the header preprocesses
successfully (no error) with `CORK_HOST_ENDIANNESS` left undefined.  On
the covered platforms an unknown order value (e.g. PDP order 3412) does
halt with the intended diagnostic. -/
theorem C2_undetermined_platform_no_error :
    byteOrderDeterminable Platform.unsupported = False ∧
    detectEndianness Platform.unsupported = PreprocessOutcome.ok none ∧
    detectEndianness (Platform.linux 3412) =
      PreprocessOutcome.error "Cannot determine system endianness" ∧
    detectEndianness (Platform.apple 3412) =
      PreprocessOutcome.error "Cannot determine system endianness" :=
  ⟨rfl, rfl, by decide, by decide⟩

/-- C3: applying the unconditional swap twice returns the original value
for every value of the stated width. -/
theorem C3_swap_involution :
    (∀ v, v < 2 ^ 16 → CORK_SWAP_UINT16 (CORK_SWAP_UINT16 v) = v) ∧
    (∀ v, v < 2 ^ 32 → CORK_SWAP_UINT32 (CORK_SWAP_UINT32 v) = v) ∧
    (∀ v, v < 2 ^ 64 → CORK_SWAP_UINT64 (CORK_SWAP_UINT64 v) = v) :=
  ⟨swap16_involution, swap32_involution, swap64_involution⟩

/-- Witness for C3 at width 32, v = 0xDEADBEEF. -/
theorem C3_witness :
    0xDEADBEEF < 2 ^ 32 ∧
    CORK_SWAP_UINT32 (CORK_SWAP_UINT32 0xDEADBEEF) = 0xDEADBEEF :=
  ⟨by decide, C3_swap_involution.2.1 0xDEADBEEF (by decide)⟩

/-- C4: on a little-endian host the little-to-host and host-to-little
conversions are the identity and the big-to-host and host-to-big
conversions are the unconditional swap; mirrored on a big-endian host. -/
theorem C4_conversion_resolution (v : Nat) :
    (CORK_UINT16_LITTLE_TO_HOST .little v = v ∧
     CORK_UINT16_HOST_TO_LITTLE .little v = v ∧
     CORK_UINT16_BIG_TO_HOST .little v = CORK_SWAP_UINT16 v ∧
     CORK_UINT16_HOST_TO_BIG .little v = CORK_SWAP_UINT16 v ∧
     CORK_UINT32_LITTLE_TO_HOST .little v = v ∧
     CORK_UINT32_HOST_TO_LITTLE .little v = v ∧
     CORK_UINT32_BIG_TO_HOST .little v = CORK_SWAP_UINT32 v ∧
     CORK_UINT32_HOST_TO_BIG .little v = CORK_SWAP_UINT32 v ∧
     CORK_UINT64_LITTLE_TO_HOST .little v = v ∧
     CORK_UINT64_HOST_TO_LITTLE .little v = v ∧
     CORK_UINT64_BIG_TO_HOST .little v = CORK_SWAP_UINT64 v ∧
     CORK_UINT64_HOST_TO_BIG .little v = CORK_SWAP_UINT64 v) ∧
    (CORK_UINT16_BIG_TO_HOST .big v = v ∧
     CORK_UINT16_HOST_TO_BIG .big v = v ∧
     CORK_UINT16_LITTLE_TO_HOST .big v = CORK_SWAP_UINT16 v ∧
     CORK_UINT16_HOST_TO_LITTLE .big v = CORK_SWAP_UINT16 v ∧
     CORK_UINT32_BIG_TO_HOST .big v = v ∧
     CORK_UINT32_HOST_TO_BIG .big v = v ∧
     CORK_UINT32_LITTLE_TO_HOST .big v = CORK_SWAP_UINT32 v ∧
     CORK_UINT32_HOST_TO_LITTLE .big v = CORK_SWAP_UINT32 v ∧
     CORK_UINT64_BIG_TO_HOST .big v = v ∧
     CORK_UINT64_HOST_TO_BIG .big v = v ∧
     CORK_UINT64_LITTLE_TO_HOST .big v = CORK_SWAP_UINT64 v ∧
     CORK_UINT64_HOST_TO_LITTLE .big v = CORK_SWAP_UINT64 v) := by
  and_intros <;> rfl

/-- C5: converting host-to-big then big-to-host (and host-to-little then
little-to-host) returns the original value, on either host. -/
theorem C5_host_roundtrip (host : Endianness) (v : Nat) :
    (v < 2 ^ 16 →
      CORK_UINT16_BIG_TO_HOST host (CORK_UINT16_HOST_TO_BIG host v) = v ∧
      CORK_UINT16_LITTLE_TO_HOST host (CORK_UINT16_HOST_TO_LITTLE host v) = v) ∧
    (v < 2 ^ 32 →
      CORK_UINT32_BIG_TO_HOST host (CORK_UINT32_HOST_TO_BIG host v) = v ∧
      CORK_UINT32_LITTLE_TO_HOST host (CORK_UINT32_HOST_TO_LITTLE host v) = v) ∧
    (v < 2 ^ 64 →
      CORK_UINT64_BIG_TO_HOST host (CORK_UINT64_HOST_TO_BIG host v) = v ∧
      CORK_UINT64_LITTLE_TO_HOST host (CORK_UINT64_HOST_TO_LITTLE host v) = v) := by
  cases host
  · refine ⟨fun h => ⟨rfl, ?_⟩, fun h => ⟨rfl, ?_⟩, fun h => ⟨rfl, ?_⟩⟩
    · exact swap16_involution v h
    · exact swap32_involution v h
    · exact swap64_involution v h
  · refine ⟨fun h => ⟨?_, rfl⟩, fun h => ⟨?_, rfl⟩, fun h => ⟨?_, rfl⟩⟩
    · exact swap16_involution v h
    · exact swap32_involution v h
    · exact swap64_involution v h

/-- Witness for C5 on a little-endian host at width 32, v = 0xDEADBEEF. -/
theorem C5_witness :
    0xDEADBEEF < 2 ^ 32 ∧
    CORK_UINT32_BIG_TO_HOST .little
      (CORK_UINT32_HOST_TO_BIG .little 0xDEADBEEF) = 0xDEADBEEF :=
  ⟨by decide,
   ((C5_host_roundtrip .little 0xDEADBEEF).2.1 (by decide)).1⟩

/-- C6: executing any in-place variant on a variable holding v leaves the
variable holding exactly the value the corresponding value-returning
variant yields on v, for every direction and host endianness. -/
theorem C6_in_place_matches_value (host : Endianness) (v : Nat) :
    CStmt.exec swapInPlaceUint16Stmt v = CORK_SWAP_UINT16 v ∧
    CStmt.exec swapInPlaceUint32Stmt v = CORK_SWAP_UINT32 v ∧
    CStmt.exec swapInPlaceUint64Stmt v = CORK_SWAP_UINT64 v ∧
    CStmt.exec (uint16BigToHostInPlaceStmt host) v = CORK_UINT16_BIG_TO_HOST host v ∧
    CStmt.exec (uint16LittleToHostInPlaceStmt host) v = CORK_UINT16_LITTLE_TO_HOST host v ∧
    CStmt.exec (uint32BigToHostInPlaceStmt host) v = CORK_UINT32_BIG_TO_HOST host v ∧
    CStmt.exec (uint32LittleToHostInPlaceStmt host) v = CORK_UINT32_LITTLE_TO_HOST host v ∧
    CStmt.exec (uint64BigToHostInPlaceStmt host) v = CORK_UINT64_BIG_TO_HOST host v ∧
    CStmt.exec (uint64LittleToHostInPlaceStmt host) v = CORK_UINT64_LITTLE_TO_HOST host v ∧
    CStmt.exec (uint16HostToBigInPlaceStmt host) v = CORK_UINT16_HOST_TO_BIG host v ∧
    CStmt.exec (uint16HostToLittleInPlaceStmt host) v = CORK_UINT16_HOST_TO_LITTLE host v ∧
    CStmt.exec (uint32HostToBigInPlaceStmt host) v = CORK_UINT32_HOST_TO_BIG host v ∧
    CStmt.exec (uint32HostToLittleInPlaceStmt host) v = CORK_UINT32_HOST_TO_LITTLE host v ∧
    CStmt.exec (uint64HostToBigInPlaceStmt host) v = CORK_UINT64_HOST_TO_BIG host v ∧
    CStmt.exec (uint64HostToLittleInPlaceStmt host) v = CORK_UINT64_HOST_TO_LITTLE host v := by
  cases host <;> and_intros <;> rfl

/-- C7: each host-to-X conversion is definitionally the same function as
the corresponding X-to-host conversion, for the value-returning and the
in-place family alike. -/
theorem C7_host_to_aliases :
    CORK_UINT16_HOST_TO_BIG = CORK_UINT16_BIG_TO_HOST ∧
    CORK_UINT32_HOST_TO_BIG = CORK_UINT32_BIG_TO_HOST ∧
    CORK_UINT64_HOST_TO_BIG = CORK_UINT64_BIG_TO_HOST ∧
    CORK_UINT16_HOST_TO_LITTLE = CORK_UINT16_LITTLE_TO_HOST ∧
    CORK_UINT32_HOST_TO_LITTLE = CORK_UINT32_LITTLE_TO_HOST ∧
    CORK_UINT64_HOST_TO_LITTLE = CORK_UINT64_LITTLE_TO_HOST ∧
    CORK_UINT16_HOST_TO_BIG_IN_PLACE = CORK_UINT16_BIG_TO_HOST_IN_PLACE ∧
    CORK_UINT32_HOST_TO_BIG_IN_PLACE = CORK_UINT32_BIG_TO_HOST_IN_PLACE ∧
    CORK_UINT64_HOST_TO_BIG_IN_PLACE = CORK_UINT64_BIG_TO_HOST_IN_PLACE ∧
    CORK_UINT16_HOST_TO_LITTLE_IN_PLACE = CORK_UINT16_LITTLE_TO_HOST_IN_PLACE ∧
    CORK_UINT32_HOST_TO_LITTLE_IN_PLACE = CORK_UINT32_LITTLE_TO_HOST_IN_PLACE ∧
    CORK_UINT64_HOST_TO_LITTLE_IN_PLACE = CORK_UINT64_LITTLE_TO_HOST_IN_PLACE := by
  and_intros <;> rfl

/-- C8: whenever the header resolves, host and other endianness are the
two distinct values big and little (in one of the two pairings), with the
name strings "big" and "little" in matching order. -/
theorem C8_endianness_constants (host : Endianness) :
    (endiannessValue host = CORK_BIG_ENDIAN ∧
     endiannessValue (CORK_OTHER_ENDIANNESS host) = CORK_LITTLE_ENDIAN ∧
     CORK_HOST_ENDIANNESS_NAME host = "big" ∧
     CORK_OTHER_ENDIANNESS_NAME host = "little") ∨
    (endiannessValue host = CORK_LITTLE_ENDIAN ∧
     endiannessValue (CORK_OTHER_ENDIANNESS host) = CORK_BIG_ENDIAN ∧
     CORK_HOST_ENDIANNESS_NAME host = "little" ∧
     CORK_OTHER_ENDIANNESS_NAME host = "big") := by
  cases host
  · exact .inl ⟨rfl, rfl, rfl, rfl⟩
  · exact .inr ⟨rfl, rfl, rfl, rfl⟩

/-- C9: evaluating any value-returning swap or conversion expression
returns the operation's value and leaves the operand variable's contents
unchanged, on either host endianness. -/
theorem C9_value_returning_pure (host : Endianness) (s : Nat) :
    CExpr.eval swapUint16Expr s = (CORK_SWAP_UINT16 s, s) ∧
    CExpr.eval swapUint32Expr s = (CORK_SWAP_UINT32 s, s) ∧
    CExpr.eval swapUint64Expr s = (CORK_SWAP_UINT64 s, s) ∧
    CExpr.eval (uint16BigToHostExpr host) s = (CORK_UINT16_BIG_TO_HOST host s, s) ∧
    CExpr.eval (uint16LittleToHostExpr host) s = (CORK_UINT16_LITTLE_TO_HOST host s, s) ∧
    CExpr.eval (uint32BigToHostExpr host) s = (CORK_UINT32_BIG_TO_HOST host s, s) ∧
    CExpr.eval (uint32LittleToHostExpr host) s = (CORK_UINT32_LITTLE_TO_HOST host s, s) ∧
    CExpr.eval (uint64BigToHostExpr host) s = (CORK_UINT64_BIG_TO_HOST host s, s) ∧
    CExpr.eval (uint64LittleToHostExpr host) s = (CORK_UINT64_LITTLE_TO_HOST host s, s) ∧
    CExpr.eval (uint16HostToBigExpr host) s = (CORK_UINT16_HOST_TO_BIG host s, s) ∧
    CExpr.eval (uint16HostToLittleExpr host) s = (CORK_UINT16_HOST_TO_LITTLE host s, s) ∧
    CExpr.eval (uint32HostToBigExpr host) s = (CORK_UINT32_HOST_TO_BIG host s, s) ∧
    CExpr.eval (uint32HostToLittleExpr host) s = (CORK_UINT32_HOST_TO_LITTLE host s, s) ∧
    CExpr.eval (uint64HostToBigExpr host) s = (CORK_UINT64_HOST_TO_BIG host s, s) ∧
    CExpr.eval (uint64HostToLittleExpr host) s = (CORK_UINT64_HOST_TO_LITTLE host s, s) := by
  cases host <;> and_intros <;> rfl

/-- C10: each swap macro first casts its argument to the stated width, so
for every natural-number argument x the result equals the byte reversal
of x mod 2^n and is itself always below 2^n. -/
theorem C10_swap_casts_argument (x : Nat) :
    (CORK_SWAP_UINT16 x = CORK_SWAP_UINT16 (x % 2 ^ 16) ∧
     CORK_SWAP_UINT16 x < 2 ^ 16 ∧
     ∀ i, i < 2 → byte i (CORK_SWAP_UINT16 x) = byte (1 - i) (x % 2 ^ 16)) ∧
    (CORK_SWAP_UINT32 x = CORK_SWAP_UINT32 (x % 2 ^ 32) ∧
     CORK_SWAP_UINT32 x < 2 ^ 32 ∧
     ∀ i, i < 4 → byte i (CORK_SWAP_UINT32 x) = byte (3 - i) (x % 2 ^ 32)) ∧
    (CORK_SWAP_UINT64 x = CORK_SWAP_UINT64 (x % 2 ^ 64) ∧
     CORK_SWAP_UINT64 x < 2 ^ 64 ∧
     ∀ i, i < 8 → byte i (CORK_SWAP_UINT64 x) = byte (7 - i) (x % 2 ^ 64)) := by
  refine ⟨⟨swap16_mod x, swap16_lt x, fun i hi => ?_⟩,
          ⟨swap32_mod x, swap32_lt x, fun i hi => ?_⟩,
          ⟨swap64_mod x, swap64_lt x, fun i hi => ?_⟩⟩
  · rw [swap16_mod x]
    exact swap16_byte _ i (Nat.mod_lt _ (by norm_num)) hi
  · rw [swap32_mod x]
    exact swap32_byte _ i (Nat.mod_lt _ (by norm_num)) hi
  · rw [swap64_mod x]
    exact swap64_byte _ i (Nat.mod_lt _ (by norm_num)) hi

/-- Witness for C10 at x = 70000 (wider than 16 bits), i = 0. -/
theorem C10_witness :
    byte 0 (CORK_SWAP_UINT16 70000) = byte 1 (70000 % 2 ^ 16) :=
  (C10_swap_casts_argument 70000).1.2.2 0 (by decide)
